import Mathlib

/-!
Handle lifecycle of the ODBC driver bridge (`conn.go`).

A shallow embedding of `Driver.Open`, `Conn.Close`, `Conn.newError`,
`Conn.Tables` and `Conn.Columns`.

The Go code talks to a native, handle-oriented API.  Everything the file
`conn.go` calls but does not define is collected in the record `Env`: each
field answers one call, as a function of the arguments of the call.  The program
state that the calls share is the `World`: the process-wide handle counters
(`drv.Stats`) and a log of the calls made so far, in order.  All theorems
quantify over every `Env` and every starting `World`.

Go strings are modelled by Lean strings (sequences of Unicode code points),
so byte sequences that are not valid UTF-8 are outside the model.  A pointer
to the first element of a buffer is modelled by `some buffer`, the nil
pointer by `none`.
-/

namespace Odbc

/-- Value of a native handle (`api.SQLHANDLE`, `api.SQLHDBC`, `api.SQLHSTMT`). -/
abbrev SQLHANDLE := Nat

/-- Status code returned by a native call (`api.SQLRETURN`). -/
abbrev SQLRETURN := Int

/-- Handle kinds `api.SQL_HANDLE_ENV`, `api.SQL_HANDLE_DBC`, `api.SQL_HANDLE_STMT`. -/
inductive HandleType where
  | SQL_HANDLE_ENV
  | SQL_HANDLE_DBC
  | SQL_HANDLE_STMT
  deriving DecidableEq, Repr

/-- A handle passed as `handle interface{}`: the dynamic type and the value. -/
inductive Handle where
  | SQLHENV (h : SQLHANDLE)
  | SQLHDBC (h : SQLHANDLE)
  | SQLHSTMT (h : SQLHANDLE)
  deriving DecidableEq, Repr

/-- Kind of the handle, as used for the handle counters. -/
def Handle.handleType : Handle → HandleType
  | .SQLHENV _ => .SQL_HANDLE_ENV
  | .SQLHDBC _ => .SQL_HANDLE_DBC
  | .SQLHSTMT _ => .SQL_HANDLE_STMT

/-- Go `error` values: the sentinel `driver.ErrBadConn`, a structured driver
error carrying the failing API name and its diagnostic text, or a plain
message. -/
inductive Error where
  | ErrBadConn
  | odbc (APIName : String) (Diag : String)
  | message (text : String)
  deriving DecidableEq, Repr

/-- The transaction object `*Tx` a connection may own. -/
structure Tx where
  id : Nat
  deriving DecidableEq, Repr

/-- The struct `Conn`. -/
structure Conn where
  h : SQLHANDLE
  tx : Option Tx
  bad : Bool
  isMSAccessDriver : Bool
  deriving DecidableEq, Repr

/-- The fields of `Driver` that `Open` reads. -/
structure Driver where
  h : SQLHANDLE
  initErr : Option Error
  deriving DecidableEq, Repr

/-- The fields of `ODBCStmt` that `conn.go` sets. -/
structure ODBCStmt where
  h : SQLHANDLE
  usedByStmt : Bool
  deriving DecidableEq, Repr

/-- The struct `Rows`. -/
structure Rows where
  os : ODBCStmt
  deriving DecidableEq, Repr

/-- The handle counters `drv.Stats`. -/
structure Stats where
  EnvCount : Int
  ConnCount : Int
  StmtCount : Int
  deriving DecidableEq, Repr

/-- One entry of the call log.  The length arguments of the native calls are
the constant `api.SQL_NTS` at every call site and are not recorded; likewise
the constant arguments `0, nil, 0, nil, api.SQL_DRIVER_NOPROMPT` of
`SQLDriverConnect`. -/
inductive Call where
  | SQLAllocHandle (handleType : HandleType) (parent : SQLHANDLE)
  | updateHandleCount (handleType : HandleType) (change : Int)
  | SQLDriverConnect (h : SQLHANDLE) (connStr : Option (List Nat))
  | SQLDisconnect (h : SQLHANDLE)
  | SQLTables (h : SQLHANDLE) (catalogP schemaP tableP : Option (List Nat))
  | SQLColumns (h : SQLHANDLE) (catalogP schemaP tableP columnP : Option (List Nat))
  | NewError (apiName : String) (handle : Handle)
  | releaseHandle (handle : Handle)
  | BindColumns (h : SQLHANDLE)
  | Rollback (tx : Tx)
  deriving DecidableEq, Repr

/-- Shared state: the handle counters and the log of calls. -/
structure World where
  stats : Stats
  log : List Call
  deriving DecidableEq, Repr

/-- What `Tx.Rollback` leaves behind on its connection. -/
structure RollbackOutcome where
  err : Option Error
  tx : Option Tx
  setsBad : Bool

/-- Everything `conn.go` calls and does not define.  Each field gives the
answer to one call as a function of its arguments. -/
structure Env where
  /-- The helper `IsError(ret)`. -/
  IsError : SQLRETURN → Bool
  /-- Native `api.SQLAllocHandle(kind, parent, &out)`: status and `out`. -/
  SQLAllocHandle : HandleType → SQLHANDLE → SQLRETURN × SQLHANDLE
  /-- Failure reported by the handle counter update, if any. -/
  accountingErr : HandleType → Int → Option Error
  /-- Native `api.SQLDriverConnect`. -/
  SQLDriverConnect : SQLHANDLE → Option (List Nat) → SQLRETURN
  /-- Native `api.SQLDisconnect`. -/
  SQLDisconnect : SQLHANDLE → SQLRETURN
  /-- Native `api.SQLTables`. -/
  SQLTables : SQLHANDLE → Option (List Nat) → Option (List Nat) → Option (List Nat) → SQLRETURN
  /-- Native `api.SQLColumns`. -/
  SQLColumns : SQLHANDLE → Option (List Nat) → Option (List Nat) → Option (List Nat) →
    Option (List Nat) → SQLRETURN
  /-- The error classifier `NewError(apiName, handle)`. -/
  NewError : String → Handle → Error
  /-- Failure reported by releasing a handle, if any. -/
  releaseErr : Handle → Option Error
  /-- Outcome of `(*ODBCStmt).BindColumns`. -/
  BindColumns : SQLHANDLE → Option Error
  /-- Outcome of `(*Tx).Rollback` on the connection that owns the transaction. -/
  Rollback : Tx → Conn → RollbackOutcome
  /-- The map `unicode.ToUpper` on code points outside ASCII. -/
  unicodeToUpper : Char → Char

/-- Append one entry to the call log. -/
def World.call (w : World) (c : Call) : World :=
  { w with log := w.log ++ [c] }

/-- Counter of one handle kind. -/
def Stats.count (s : Stats) : HandleType → Int
  | .SQL_HANDLE_ENV => s.EnvCount
  | .SQL_HANDLE_DBC => s.ConnCount
  | .SQL_HANDLE_STMT => s.StmtCount

/-- Add `change` to the counter of one handle kind. -/
def Stats.add (s : Stats) (handleType : HandleType) (change : Int) : Stats :=
  match handleType with
  | .SQL_HANDLE_ENV => { s with EnvCount := s.EnvCount + change }
  | .SQL_HANDLE_DBC => { s with ConnCount := s.ConnCount + change }
  | .SQL_HANDLE_STMT => { s with StmtCount := s.StmtCount + change }

/-- Modelled from the spec: `drv.Stats.updateHandleCount` of the Handle
Registry, which is not under `src/`.  The spec: "counters of live handles per
handle kind, incremented on allocation, decremented on release"; "accounting
failures from the Handle Registry" are "propagated as ordinary errors".  The
counter of the kind changes by `change`; the failure, if the registry reports
one, is the returned error. -/
def updateHandleCount (env : Env) (handleType : HandleType) (change : Int) (w : World) :
    Option Error × World :=
  (env.accountingErr handleType change,
    { stats := w.stats.add handleType change,
      log := w.log ++ [Call.updateHandleCount handleType change] })

/-- Modelled from the spec: `releaseHandle`, which is not under `src/`.  The
spec: "release-handle(handle) -> status"; the handle count is "decremented on
every release".  The call is logged, the counter of the kind of the handle
goes down by one, and the failure, if release reports one, is the returned error. -/
def releaseHandle (env : Env) (handle : Handle) (w : World) : Option Error × World :=
  (env.releaseErr handle,
    { stats := w.stats.add handle.handleType (-1),
      log := w.log ++ [Call.releaseHandle handle] })

/-- Modelled from the spec: the classifier `NewError(apiName, handle)`, which
is not under `src/`.  The spec: it "produces a structured error" with the
name of the failing operation and "diagnostic text retrieved from the native
handle", or the sentinel.  The call is logged and always yields an error
value. -/
def NewError (env : Env) (apiName : String) (handle : Handle) (w : World) : Error × World :=
  (env.NewError apiName handle, w.call (Call.NewError apiName handle))

/-- Modelled from the spec: `api.StringToUTF16` of package `api`, which is not
under `src/`.  The spec: the string is "encoded as a null-terminated
wide-character sequence".  One code point becomes one or two 16-bit units. -/
def utf16Units (c : Char) : List Nat :=
  if c.toNat < 0x10000 then [c.toNat]
  else [0xD800 + (c.toNat - 0x10000) / 0x400, 0xDC00 + (c.toNat - 0x10000) % 0x400]

/-- Modelled from the spec: `api.StringToUTF16`, the UTF-16 units of the string
followed by the terminating zero. -/
def StringToUTF16 (s : String) : List Nat :=
  (s.toList.map utf16Units).flatten ++ [0]

/-- The call `strings.Replace(s, " ", "", -1)`: every space (U+0020) is removed. -/
def removeSpaces (s : List Char) : List Char :=
  s.filter (fun c => c != ' ')

/-- The call `strings.ToUpper(s)`: ASCII letters are upper-cased, every other
code point goes through `unicode.ToUpper`. -/
def ToUpper (env : Env) (s : List Char) : List Char :=
  s.map (fun c => if c.toNat < 128 then c.toUpper else env.unicodeToUpper c)

/-- The call `strings.Contains(s, substr)`. -/
def Contains : List Char → List Char → Bool
  | [], substr => substr.isEmpty
  | c :: s, substr => substr.isPrefixOf (c :: s) || Contains s substr

/-- The package variable `accessDriverSubstr`. -/
def accessDriverSubstr (env : Env) : List Char :=
  ToUpper env (removeSpaces "DRIVER=\x7bMicrosoft Access Driver".toList)

/-- Modelled from the spec: the constant `api.SQL_NULL_HDBC` of package `api`,
which is not under `src/`: the null connection handle the handle field is
cleared to. -/
def SQL_NULL_HDBC : SQLHANDLE := 0

/-- Result of `Driver.Open`: the two Go results and the state left behind. -/
structure OpenResult where
  conn : Option Conn
  err : Option Error
  world : World

/-- The method `Driver.Open`. -/
def Driver.Open (env : Env) (d : Driver) (dsn : String) (w : World) : OpenResult :=
  match d.initErr with
  | some e => ⟨none, some e, w⟩
  | none =>
    let ret := env.SQLAllocHandle .SQL_HANDLE_DBC d.h
    let w := w.call (Call.SQLAllocHandle .SQL_HANDLE_DBC d.h)
    if env.IsError ret.1 then
      let r := NewError env "SQLAllocHandle" (.SQLHENV d.h) w
      ⟨none, some r.1, r.2⟩
    else
      let h := ret.2
      -- the result of updateHandleCount is dropped
      let w := (updateHandleCount env .SQL_HANDLE_DBC 1 w).2
      let b := StringToUTF16 dsn
      let ret := env.SQLDriverConnect h (some b)
      let w := w.call (Call.SQLDriverConnect h (some b))
      if env.IsError ret then
        -- return value first, then the deferred releaseHandle(h)
        let r := NewError env "SQLDriverConnect" (.SQLHDBC h) w
        let w := (releaseHandle env (.SQLHDBC h) r.2).2
        ⟨none, some r.1, w⟩
      else
        let isAccess := Contains (ToUpper env (removeSpaces dsn.toList)) (accessDriverSubstr env)
        ⟨some { h := h, tx := none, bad := false, isMSAccessDriver := isAccess }, none, w⟩

/-- The method `Conn.newError`: classify, and flag the connection when the
classifier yields the sentinel. -/
def Conn.newError (env : Env) (c : Conn) (apiName : String) (handle : Handle) (w : World) :
    Error × Conn × World :=
  let r := NewError env apiName handle w
  let c := if r.1 = Error.ErrBadConn then { c with bad := true } else c
  (r.1, c, r.2)

/-- Modelled from the spec: `(*Tx).Rollback`, which is not under `src/`.  The
spec keeps the "commit/rollback mechanics" of the transaction object outside and
says a connection is "mutated by transaction begin/end and by error
classification": the rollback is logged, may replace the `tx` field and may
set (never clear) the `bad` flag; it leaves the handle field alone. -/
def Tx.Rollback (env : Env) (t : Tx) (c : Conn) (w : World) : Option Error × Conn × World :=
  let o := env.Rollback t c
  (o.err, { c with tx := o.tx, bad := c.bad || o.setsBad }, w.call (Call.Rollback t))

/-- Result of `Conn.Close`: the returned error, the connection and the state
left behind. -/
structure CloseResult where
  err : Option Error
  conn : Conn
  world : World

/-- The deferred function of `Conn.Close`; `err` is the named result at the
moment the function body returns. -/
def Conn.Close.deferred (env : Env) (h : SQLHANDLE) (err : Option Error) (c : Conn)
    (w : World) : CloseResult :=
  let c := { c with h := SQL_NULL_HDBC }
  let e := releaseHandle env (.SQLHDBC h) w
  let err := if err = none then e.1 else err
  ⟨err, c, e.2⟩

/-- The method `Conn.Close`. -/
def Conn.Close (env : Env) (c : Conn) (w : World) : CloseResult :=
  -- the result of Rollback is dropped
  let cw : Conn × World :=
    match c.tx with
    | some t => (Tx.Rollback env t c w).2
    | none => (c, w)
  let c := cw.1
  let w := cw.2
  let h := c.h
  let ret := env.SQLDisconnect c.h
  let w := w.call (Call.SQLDisconnect c.h)
  if env.IsError ret then
    let r := c.newError env "SQLDisconnect" (.SQLHDBC h) w
    Conn.Close.deferred env h (some r.1) r.2.1 r.2.2
  else
    Conn.Close.deferred env h none c w

/-- The block repeated for each filter of `Tables` and `Columns`: the pointer
stays nil for the empty string and otherwise points at the encoded string. -/
def filterPointer (s : String) : Option (List Nat) :=
  if s ≠ "" then some (StringToUTF16 s) else none

/-- Modelled from the spec: `(*ODBCStmt).BindColumns`, which is not under
`src/`.  The spec: "Bind result columns on the statement (delegated ...)";
the handle counters change only on allocation and on release.  The call is
logged and reports the failure, if any. -/
def ODBCStmt.BindColumns (env : Env) (os : ODBCStmt) (w : World) : Option Error × World :=
  (env.BindColumns os.h, w.call (Call.BindColumns os.h))

/-- Result of `Conn.Tables` and `Conn.Columns`: the two Go results, the
connection and the state left behind. -/
structure QueryResult where
  rows : Option Rows
  err : Option Error
  conn : Conn
  world : World

/-- The method `Conn.Tables`. -/
def Conn.Tables (env : Env) (c : Conn) (catalog schema table : String) (w : World) :
    QueryResult :=
  let ret := env.SQLAllocHandle .SQL_HANDLE_STMT c.h
  let w := w.call (Call.SQLAllocHandle .SQL_HANDLE_STMT c.h)
  if env.IsError ret.1 then
    let r := c.newError env "SQLAllocHandle" (.SQLHDBC c.h) w
    ⟨none, some r.1, r.2.1, r.2.2⟩
  else
    let h := ret.2
    let u := updateHandleCount env .SQL_HANDLE_STMT 1 w
    match u.1 with
    | some err => ⟨none, some err, c, u.2⟩
    | none =>
      let w := u.2
      let catalogP := filterPointer catalog
      let schemaP := filterPointer schema
      let tableP := filterPointer table
      let ret := env.SQLTables h catalogP schemaP tableP
      let w := w.call (Call.SQLTables h catalogP schemaP tableP)
      if env.IsError ret then
        -- return value first, then the deferred releaseHandle(h)
        let r := NewError env "SQLTables" (.SQLHSTMT h) w
        let w := (releaseHandle env (.SQLHSTMT h) r.2).2
        ⟨none, some r.1, c, w⟩
      else
        let os : ODBCStmt := { h := h, usedByStmt := true }
        let b := os.BindColumns env w
        match b.1 with
        | some err => ⟨none, some err, c, b.2⟩
        | none => ⟨some { os := os }, none, c, b.2⟩

/-- The method `Conn.Columns`. -/
def Conn.Columns (env : Env) (c : Conn) (catalog schema table column : String) (w : World) :
    QueryResult :=
  let ret := env.SQLAllocHandle .SQL_HANDLE_STMT c.h
  let w := w.call (Call.SQLAllocHandle .SQL_HANDLE_STMT c.h)
  if env.IsError ret.1 then
    let r := c.newError env "SQLAllocHandle" (.SQLHDBC c.h) w
    ⟨none, some r.1, r.2.1, r.2.2⟩
  else
    let h := ret.2
    let u := updateHandleCount env .SQL_HANDLE_STMT 1 w
    match u.1 with
    | some err => ⟨none, some err, c, u.2⟩
    | none =>
      let w := u.2
      let catalogP := filterPointer catalog
      let schemaP := filterPointer schema
      let tableP := filterPointer table
      let columnP := filterPointer column
      let ret := env.SQLColumns h catalogP schemaP tableP columnP
      let w := w.call (Call.SQLColumns h catalogP schemaP tableP columnP)
      if env.IsError ret then
        -- return value first, then the deferred releaseHandle(h)
        let r := NewError env "SQLColumns" (.SQLHSTMT h) w
        let w := (releaseHandle env (.SQLHSTMT h) r.2).2
        ⟨none, some r.1, c, w⟩
      else
        let os : ODBCStmt := { h := h, usedByStmt := true }
        let b := os.BindColumns env w
        match b.1 with
        | some err => ⟨none, some err, c, b.2⟩
        | none => ⟨some { os := os }, none, c, b.2⟩

/-- Log entries that release a handle. -/
def Call.isRelease : Call → Bool
  | .releaseHandle _ => true
  | _ => false

/-- Log entries that roll a transaction back. -/
def Call.isRollback : Call → Bool
  | .Rollback _ => true
  | _ => false

/-- Log entries of the native connect handshake and the native catalog calls. -/
def Call.isNativeQuery : Call → Bool
  | .SQLDriverConnect _ _ => true
  | .SQLTables _ _ _ _ => true
  | .SQLColumns _ _ _ _ _ => true
  | _ => false

/-! ## The quirk flag as the specification words it -/

/-- The quirk flag as the specification words it: the connection string "with
its whitespace stripped and compared case-insensitively contains the
whitespace-stripped marker". -/
def specQuirk (env : Env) (dsn : String) : Bool :=
  Contains (ToUpper env (dsn.toList.filter (fun c => !c.isWhitespace)))
    (ToUpper env ("DRIVER=\x7bMicrosoft Access Driver".toList.filter (fun c => !c.isWhitespace)))

/-- How one filter is to reach the native catalog call: as the nil pointer
exactly when the argument is the empty string, and otherwise as a pointer to
the wide-character encoding of that argument. -/
def PassedAsFilter (arg : String) (p : Option (List Nat)) : Prop :=
  (p = none ↔ arg = "") ∧ (arg ≠ "" → p = some (StringToUTF16 arg))

instance (arg : String) (p : Option (List Nat)) : Decidable (PassedAsFilter arg p) := by
  unfold PassedAsFilter
  infer_instance

/-! ## Sample environments -/

/-- A native layer in which every call succeeds; status `0` and `1` are the
two success codes, handle `7` is what allocation hands out. -/
def okEnv : Env where
  IsError := fun ret => ret != 0 && ret != 1
  SQLAllocHandle := fun _ _ => (0, 7)
  accountingErr := fun _ _ => none
  SQLDriverConnect := fun _ _ => 0
  SQLDisconnect := fun _ => 0
  SQLTables := fun _ _ _ _ => 0
  SQLColumns := fun _ _ _ _ _ => 0
  NewError := fun apiName _ => Error.odbc apiName "diagnostic"
  releaseErr := fun _ => none
  BindColumns := fun _ => none
  Rollback := fun _ _ => { err := none, tx := none, setsBad := false }
  unicodeToUpper := fun c => c

/-- The connect handshake fails. -/
def connectFailEnv : Env :=
  { okEnv with SQLDriverConnect := fun _ _ => -1 }

/-- The native catalog calls fail. -/
def catalogFailEnv : Env :=
  { okEnv with SQLTables := fun _ _ _ _ => -1, SQLColumns := fun _ _ _ _ _ => -1 }

/-- The native catalog calls fail and the classifier yields the sentinel. -/
def badConnEnv : Env :=
  { catalogFailEnv with NewError := fun _ _ => Error.ErrBadConn }

/-- Binding the result columns fails. -/
def bindFailEnv : Env :=
  { okEnv with BindColumns := fun _ => some (Error.message "Stmt did not create a result set") }

/-- The handle counter update reports a failure. -/
def accountingFailEnv : Env :=
  { okEnv with accountingErr := fun _ _ => some (Error.message "unexpected handle type") }

/-- Disconnect fails, release fails too, and the rollback reports an error. -/
def closeFailEnv : Env :=
  { okEnv with
    SQLDisconnect := fun _ => -1
    releaseErr := fun _ => some (Error.message "SQLFreeHandle failed")
    Rollback := fun _ _ => { err := some (Error.message "rollback failed"), tx := none, setsBad := false } }

/-- A driver whose initialisation succeeded, with environment handle `1`. -/
def sampleDriver : Driver := { h := 1, initErr := none }

/-- A starting state with two live connections and three live statements. -/
def sampleWorld : World :=
  { stats := { EnvCount := 1, ConnCount := 2, StmtCount := 3 }, log := [] }

/-- An open connection on handle `7` with an active transaction. -/
def sampleConn : Conn :=
  { h := 7, tx := some { id := 1 }, bad := false, isMSAccessDriver := false }


/-! ## Auxiliary facts -/

theorem Stats.add_add_neg (s : Stats) (k : HandleType) : (s.add k 1).add k (-1) = s := by
  cases k <;> simp [Stats.add]

theorem Contains_iff_infix (s substr : List Char) :
    Contains s substr = true ↔ substr <:+: s := by
  induction s with
  | nil => simp [Contains, List.isEmpty_iff]
  | cons c s ih => simp [Contains, ih, List.infix_cons_iff]

theorem ToUpper_append (env : Env) (a b : List Char) :
    ToUpper env (a ++ b) = ToUpper env a ++ ToUpper env b := by
  simp [ToUpper]

theorem removeSpaces_append (a b : List Char) :
    removeSpaces (a ++ b) = removeSpaces a ++ removeSpaces b := by
  simp [removeSpaces]

theorem accessDriverSubstr_eq (env : Env) :
    accessDriverSubstr env = "DRIVER=\x7bMICROSOFTACCESSDRIVER".toList := by
  rfl

/-! ## Driver.Open -/

/-- C1. When the connection handle is allocated and the connect handshake then
reports an error, `Open` returns no connection and the classified handshake
error, it releases the handle it allocated (after classifying, as its last
call), and the handle counters after the call equal the counters before. -/
theorem Open_connect_failure_releases_handle (env : Env) (d : Driver) (dsn : String) (w : World)
    (hinit : d.initErr = none)
    (halloc : env.IsError (env.SQLAllocHandle .SQL_HANDLE_DBC d.h).1 = false)
    (hconn : env.IsError (env.SQLDriverConnect (env.SQLAllocHandle .SQL_HANDLE_DBC d.h).2
      (some (StringToUTF16 dsn))) = true) :
    (Driver.Open env d dsn w).conn = none ∧
    (Driver.Open env d dsn w).err =
      some (env.NewError "SQLDriverConnect"
        (.SQLHDBC (env.SQLAllocHandle .SQL_HANDLE_DBC d.h).2)) ∧
    (Driver.Open env d dsn w).world.log = w.log ++
      [Call.SQLAllocHandle .SQL_HANDLE_DBC d.h,
       Call.updateHandleCount .SQL_HANDLE_DBC 1,
       Call.SQLDriverConnect (env.SQLAllocHandle .SQL_HANDLE_DBC d.h).2 (some (StringToUTF16 dsn)),
       Call.NewError "SQLDriverConnect" (.SQLHDBC (env.SQLAllocHandle .SQL_HANDLE_DBC d.h).2),
       Call.releaseHandle (.SQLHDBC (env.SQLAllocHandle .SQL_HANDLE_DBC d.h).2)] ∧
    (Driver.Open env d dsn w).world.stats.ConnCount = w.stats.ConnCount ∧
    (Driver.Open env d dsn w).world.stats = w.stats := by
  have hs := Stats.add_add_neg w.stats .SQL_HANDLE_DBC
  simp [Driver.Open, hinit, halloc, hconn, NewError, releaseHandle, updateHandleCount,
    World.call, Handle.handleType, hs]

/-- Witness of C1: a failing handshake on the sample driver. -/
theorem Open_connect_failure_releases_handle_witness :
    (Driver.Open connectFailEnv sampleDriver "DSN=x" sampleWorld).conn = none ∧
    (Driver.Open connectFailEnv sampleDriver "DSN=x" sampleWorld).err =
      some (Error.odbc "SQLDriverConnect" "diagnostic") ∧
    (Driver.Open connectFailEnv sampleDriver "DSN=x" sampleWorld).world.stats.ConnCount = 2 :=
  have h := Open_connect_failure_releases_handle connectFailEnv sampleDriver "DSN=x" sampleWorld
    (by decide) (by decide) (by decide)
  ⟨h.1, h.2.1, h.2.2.2.1⟩

/-! ## Conn.Tables and Conn.Columns -/

/-- C2. When the statement handle is allocated and counted and the native
catalog call then reports an error, `Tables` and `Columns` return no cursor and
the classified error, release the statement handle as their last call, and
leave the handle counters as they were before the call. -/
theorem catalog_call_failure_releases_statement (env : Env) (c : Conn) (w : World)
    (halloc : env.IsError (env.SQLAllocHandle .SQL_HANDLE_STMT c.h).1 = false)
    (hcount : env.accountingErr .SQL_HANDLE_STMT 1 = none) :
    (∀ catalog schema table : String,
      env.IsError (env.SQLTables (env.SQLAllocHandle .SQL_HANDLE_STMT c.h).2
        (filterPointer catalog) (filterPointer schema) (filterPointer table)) = true →
      (c.Tables env catalog schema table w).rows = none ∧
      (c.Tables env catalog schema table w).err =
        some (env.NewError "SQLTables" (.SQLHSTMT (env.SQLAllocHandle .SQL_HANDLE_STMT c.h).2)) ∧
      (c.Tables env catalog schema table w).world.log = w.log ++
        [Call.SQLAllocHandle .SQL_HANDLE_STMT c.h,
         Call.updateHandleCount .SQL_HANDLE_STMT 1,
         Call.SQLTables (env.SQLAllocHandle .SQL_HANDLE_STMT c.h).2
           (filterPointer catalog) (filterPointer schema) (filterPointer table),
         Call.NewError "SQLTables" (.SQLHSTMT (env.SQLAllocHandle .SQL_HANDLE_STMT c.h).2),
         Call.releaseHandle (.SQLHSTMT (env.SQLAllocHandle .SQL_HANDLE_STMT c.h).2)] ∧
      (c.Tables env catalog schema table w).world.stats.StmtCount = w.stats.StmtCount ∧
      (c.Tables env catalog schema table w).world.stats = w.stats) ∧
    (∀ catalog schema table column : String,
      env.IsError (env.SQLColumns (env.SQLAllocHandle .SQL_HANDLE_STMT c.h).2
        (filterPointer catalog) (filterPointer schema) (filterPointer table)
        (filterPointer column)) = true →
      (c.Columns env catalog schema table column w).rows = none ∧
      (c.Columns env catalog schema table column w).err =
        some (env.NewError "SQLColumns" (.SQLHSTMT (env.SQLAllocHandle .SQL_HANDLE_STMT c.h).2)) ∧
      (c.Columns env catalog schema table column w).world.log = w.log ++
        [Call.SQLAllocHandle .SQL_HANDLE_STMT c.h,
         Call.updateHandleCount .SQL_HANDLE_STMT 1,
         Call.SQLColumns (env.SQLAllocHandle .SQL_HANDLE_STMT c.h).2
           (filterPointer catalog) (filterPointer schema) (filterPointer table)
           (filterPointer column),
         Call.NewError "SQLColumns" (.SQLHSTMT (env.SQLAllocHandle .SQL_HANDLE_STMT c.h).2),
         Call.releaseHandle (.SQLHSTMT (env.SQLAllocHandle .SQL_HANDLE_STMT c.h).2)] ∧
      (c.Columns env catalog schema table column w).world.stats.StmtCount = w.stats.StmtCount ∧
      (c.Columns env catalog schema table column w).world.stats = w.stats) := by
  have hs := Stats.add_add_neg w.stats .SQL_HANDLE_STMT
  constructor
  · intro catalog schema table hcall
    simp [Conn.Tables, halloc, hcount, hcall, NewError, releaseHandle, updateHandleCount,
      World.call, Handle.handleType, hs]
  · intro catalog schema table column hcall
    simp [Conn.Columns, halloc, hcount, hcall, NewError, releaseHandle, updateHandleCount,
      World.call, Handle.handleType, hs]

/-- Witness of C2: failing catalog calls on the sample connection. -/
theorem catalog_call_failure_releases_statement_witness :
    ((sampleConn.Tables catalogFailEnv "" "" "orders" sampleWorld).rows = none ∧
      (sampleConn.Tables catalogFailEnv "" "" "orders" sampleWorld).world.stats.StmtCount = 3) ∧
    ((sampleConn.Columns catalogFailEnv "" "" "orders" "id" sampleWorld).rows = none ∧
      (sampleConn.Columns catalogFailEnv "" "" "orders" "id" sampleWorld).world.stats.StmtCount
        = 3) :=
  have h := catalog_call_failure_releases_statement catalogFailEnv sampleConn sampleWorld
    (by decide) (by decide)
  have ht := h.1 "" "" "orders" (by decide)
  have hc := h.2 "" "" "orders" "id" (by decide)
  ⟨⟨ht.1, ht.2.2.2.1⟩, ⟨hc.1, hc.2.2.2.1⟩⟩

/-- When binding the result columns fails after a successful catalog call,
`Tables` and `Columns` return the binding error without a release: the log ends
with the binding call and the statement counter stays one above its value
before the call. -/
theorem bind_failure_keeps_statement_counted (env : Env) (c : Conn) (w : World) (e : Error)
    (halloc : env.IsError (env.SQLAllocHandle .SQL_HANDLE_STMT c.h).1 = false)
    (hcount : env.accountingErr .SQL_HANDLE_STMT 1 = none)
    (hbind : env.BindColumns (env.SQLAllocHandle .SQL_HANDLE_STMT c.h).2 = some e) :
    (∀ catalog schema table : String,
      env.IsError (env.SQLTables (env.SQLAllocHandle .SQL_HANDLE_STMT c.h).2
        (filterPointer catalog) (filterPointer schema) (filterPointer table)) = false →
      (c.Tables env catalog schema table w).err = some e ∧
      (c.Tables env catalog schema table w).world.log = w.log ++
        [Call.SQLAllocHandle .SQL_HANDLE_STMT c.h,
         Call.updateHandleCount .SQL_HANDLE_STMT 1,
         Call.SQLTables (env.SQLAllocHandle .SQL_HANDLE_STMT c.h).2
           (filterPointer catalog) (filterPointer schema) (filterPointer table),
         Call.BindColumns (env.SQLAllocHandle .SQL_HANDLE_STMT c.h).2] ∧
      (c.Tables env catalog schema table w).world.stats.StmtCount = w.stats.StmtCount + 1) ∧
    (∀ catalog schema table column : String,
      env.IsError (env.SQLColumns (env.SQLAllocHandle .SQL_HANDLE_STMT c.h).2
        (filterPointer catalog) (filterPointer schema) (filterPointer table)
        (filterPointer column)) = false →
      (c.Columns env catalog schema table column w).err = some e ∧
      (c.Columns env catalog schema table column w).world.log = w.log ++
        [Call.SQLAllocHandle .SQL_HANDLE_STMT c.h,
         Call.updateHandleCount .SQL_HANDLE_STMT 1,
         Call.SQLColumns (env.SQLAllocHandle .SQL_HANDLE_STMT c.h).2
           (filterPointer catalog) (filterPointer schema) (filterPointer table)
           (filterPointer column),
         Call.BindColumns (env.SQLAllocHandle .SQL_HANDLE_STMT c.h).2] ∧
      (c.Columns env catalog schema table column w).world.stats.StmtCount
        = w.stats.StmtCount + 1) := by
  constructor
  · intro catalog schema table hcall
    simp [Conn.Tables, halloc, hcount, hcall, hbind, ODBCStmt.BindColumns, updateHandleCount,
      World.call, Stats.add]
  · intro catalog schema table column hcall
    simp [Conn.Columns, halloc, hcount, hcall, hbind, ODBCStmt.BindColumns, updateHandleCount,
      World.call, Stats.add]

/-- C3, evaluated where binding fails.  On the sample connection with three
live statements, `Tables("", "", "orders")` and
`Columns("", "", "orders", "id")` return the binding error and no cursor, the
log of the call holds no release, and the statement counter is four. -/
theorem bind_failure_leaks_statement_handle :
    ((sampleConn.Tables bindFailEnv "" "" "orders" sampleWorld).rows = none ∧
      (sampleConn.Tables bindFailEnv "" "" "orders" sampleWorld).err =
        some (Error.message "Stmt did not create a result set") ∧
      (sampleConn.Tables bindFailEnv "" "" "orders" sampleWorld).world.log.filter Call.isRelease
        = [] ∧
      sampleWorld.stats.StmtCount = 3 ∧
      (sampleConn.Tables bindFailEnv "" "" "orders" sampleWorld).world.stats.StmtCount = 4) ∧
    ((sampleConn.Columns bindFailEnv "" "" "orders" "id" sampleWorld).rows = none ∧
      (sampleConn.Columns bindFailEnv "" "" "orders" "id" sampleWorld).err =
        some (Error.message "Stmt did not create a result set") ∧
      (sampleConn.Columns bindFailEnv "" "" "orders" "id" sampleWorld).world.log.filter
        Call.isRelease = [] ∧
      (sampleConn.Columns bindFailEnv "" "" "orders" "id" sampleWorld).world.stats.StmtCount
        = 4) := by
  decide

/-- The encoded buffer is never empty, so taking the address of its first
element is always defined. -/
theorem StringToUTF16_ne_nil (s : String) : StringToUTF16 s ≠ [] := by
  simp [StringToUTF16]

theorem PassedAsFilter_filterPointer (s : String) : PassedAsFilter s (filterPointer s) := by
  unfold PassedAsFilter filterPointer
  by_cases h : s = "" <;> simp [h]

/-- C8. Whenever `Tables` or `Columns` reaches the native catalog call, that
call is the third entry the operation logs and the only native catalog call,
and each filter is passed in its own position as the nil pointer exactly when
the argument is empty and otherwise as a pointer to the encoding of that
argument.  `Tables("", "", "orders")` passes nil, nil and the encoding of
"orders". -/
theorem catalog_filters_nil_iff_empty (env : Env) (c : Conn) (w : World)
    (halloc : env.IsError (env.SQLAllocHandle .SQL_HANDLE_STMT c.h).1 = false)
    (hcount : env.accountingErr .SQL_HANDLE_STMT 1 = none) :
    (∀ catalog schema table : String, ∃ catalogP schemaP tableP rest,
      (c.Tables env catalog schema table w).world.log = w.log ++
        [Call.SQLAllocHandle .SQL_HANDLE_STMT c.h,
         Call.updateHandleCount .SQL_HANDLE_STMT 1,
         Call.SQLTables (env.SQLAllocHandle .SQL_HANDLE_STMT c.h).2 catalogP schemaP tableP]
        ++ rest ∧
      rest.filter Call.isNativeQuery = [] ∧
      PassedAsFilter catalog catalogP ∧ PassedAsFilter schema schemaP ∧
      PassedAsFilter table tableP) ∧
    (∀ catalog schema table column : String, ∃ catalogP schemaP tableP columnP rest,
      (c.Columns env catalog schema table column w).world.log = w.log ++
        [Call.SQLAllocHandle .SQL_HANDLE_STMT c.h,
         Call.updateHandleCount .SQL_HANDLE_STMT 1,
         Call.SQLColumns (env.SQLAllocHandle .SQL_HANDLE_STMT c.h).2 catalogP schemaP tableP
           columnP]
        ++ rest ∧
      rest.filter Call.isNativeQuery = [] ∧
      PassedAsFilter catalog catalogP ∧ PassedAsFilter schema schemaP ∧
      PassedAsFilter table tableP ∧ PassedAsFilter column columnP) ∧
    Call.SQLTables (env.SQLAllocHandle .SQL_HANDLE_STMT c.h).2 none none
      (some [111, 114, 100, 101, 114, 115, 0]) ∈ (c.Tables env "" "" "orders" w).world.log := by
  refine ⟨?_, ?_, ?_⟩
  · intro catalog schema table
    refine ⟨filterPointer catalog, filterPointer schema, filterPointer table, ?_⟩
    cases hcall : env.IsError (env.SQLTables (env.SQLAllocHandle .SQL_HANDLE_STMT c.h).2
        (filterPointer catalog) (filterPointer schema) (filterPointer table))
    · cases hbind : env.BindColumns (env.SQLAllocHandle .SQL_HANDLE_STMT c.h).2
      · refine ⟨[Call.BindColumns (env.SQLAllocHandle .SQL_HANDLE_STMT c.h).2], ?_, rfl,
          PassedAsFilter_filterPointer _, PassedAsFilter_filterPointer _,
          PassedAsFilter_filterPointer _⟩
        simp [Conn.Tables, halloc, hcount, hcall, hbind, ODBCStmt.BindColumns,
          updateHandleCount, World.call]
      · refine ⟨[Call.BindColumns (env.SQLAllocHandle .SQL_HANDLE_STMT c.h).2], ?_, rfl,
          PassedAsFilter_filterPointer _, PassedAsFilter_filterPointer _,
          PassedAsFilter_filterPointer _⟩
        simp [Conn.Tables, halloc, hcount, hcall, hbind, ODBCStmt.BindColumns,
          updateHandleCount, World.call]
    · refine ⟨[Call.NewError "SQLTables"
            (.SQLHSTMT (env.SQLAllocHandle .SQL_HANDLE_STMT c.h).2),
          Call.releaseHandle (.SQLHSTMT (env.SQLAllocHandle .SQL_HANDLE_STMT c.h).2)], ?_, rfl,
          PassedAsFilter_filterPointer _, PassedAsFilter_filterPointer _,
          PassedAsFilter_filterPointer _⟩
      simp [Conn.Tables, halloc, hcount, hcall, NewError, releaseHandle, updateHandleCount,
        World.call]
  · intro catalog schema table column
    refine ⟨filterPointer catalog, filterPointer schema, filterPointer table,
      filterPointer column, ?_⟩
    cases hcall : env.IsError (env.SQLColumns (env.SQLAllocHandle .SQL_HANDLE_STMT c.h).2
        (filterPointer catalog) (filterPointer schema) (filterPointer table)
        (filterPointer column))
    · cases hbind : env.BindColumns (env.SQLAllocHandle .SQL_HANDLE_STMT c.h).2
      · refine ⟨[Call.BindColumns (env.SQLAllocHandle .SQL_HANDLE_STMT c.h).2], ?_, rfl,
          PassedAsFilter_filterPointer _, PassedAsFilter_filterPointer _,
          PassedAsFilter_filterPointer _, PassedAsFilter_filterPointer _⟩
        simp [Conn.Columns, halloc, hcount, hcall, hbind, ODBCStmt.BindColumns,
          updateHandleCount, World.call]
      · refine ⟨[Call.BindColumns (env.SQLAllocHandle .SQL_HANDLE_STMT c.h).2], ?_, rfl,
          PassedAsFilter_filterPointer _, PassedAsFilter_filterPointer _,
          PassedAsFilter_filterPointer _, PassedAsFilter_filterPointer _⟩
        simp [Conn.Columns, halloc, hcount, hcall, hbind, ODBCStmt.BindColumns,
          updateHandleCount, World.call]
    · refine ⟨[Call.NewError "SQLColumns"
            (.SQLHSTMT (env.SQLAllocHandle .SQL_HANDLE_STMT c.h).2),
          Call.releaseHandle (.SQLHSTMT (env.SQLAllocHandle .SQL_HANDLE_STMT c.h).2)], ?_, rfl,
          PassedAsFilter_filterPointer _, PassedAsFilter_filterPointer _,
          PassedAsFilter_filterPointer _, PassedAsFilter_filterPointer _⟩
      simp [Conn.Columns, halloc, hcount, hcall, NewError, releaseHandle, updateHandleCount,
        World.call]
  · have hp : filterPointer "orders" = some [111, 114, 100, 101, 114, 115, 0] := by decide
    have hn : filterPointer "" = none := by decide
    cases hcall : env.IsError (env.SQLTables (env.SQLAllocHandle .SQL_HANDLE_STMT c.h).2
        none none (some [111, 114, 100, 101, 114, 115, 0]))
    · cases hbind : env.BindColumns (env.SQLAllocHandle .SQL_HANDLE_STMT c.h).2 <;>
        simp [Conn.Tables, halloc, hcount, hcall, hbind, hp, hn, ODBCStmt.BindColumns,
          updateHandleCount, World.call]
    · simp [Conn.Tables, halloc, hcount, hcall, hp, hn, NewError, releaseHandle,
        updateHandleCount, World.call]

/-- Witness of C8: `Tables("", "", "orders")` on the sample connection. -/
theorem catalog_filters_nil_iff_empty_witness :
    Call.SQLTables 7 none none (some [111, 114, 100, 101, 114, 115, 0]) ∈
      (sampleConn.Tables okEnv "" "" "orders" sampleWorld).world.log :=
  (catalog_filters_nil_iff_empty okEnv sampleConn sampleWorld (by decide) (by decide)).2.2

/-- When the counter update after a successful allocation reports a failure,
`Tables` and `Columns` return that failure and no cursor, and stop before the
native catalog call. -/
theorem catalog_query_stops_on_accounting_failure (env : Env) (c : Conn) (w : World)
    (e : Error)
    (halloc : env.IsError (env.SQLAllocHandle .SQL_HANDLE_STMT c.h).1 = false)
    (hcount : env.accountingErr .SQL_HANDLE_STMT 1 = some e) :
    (∀ catalog schema table : String,
      (c.Tables env catalog schema table w).rows = none ∧
      (c.Tables env catalog schema table w).err = some e ∧
      (c.Tables env catalog schema table w).world.log = w.log ++
        [Call.SQLAllocHandle .SQL_HANDLE_STMT c.h, Call.updateHandleCount .SQL_HANDLE_STMT 1]) ∧
    (∀ catalog schema table column : String,
      (c.Columns env catalog schema table column w).rows = none ∧
      (c.Columns env catalog schema table column w).err = some e ∧
      (c.Columns env catalog schema table column w).world.log = w.log ++
        [Call.SQLAllocHandle .SQL_HANDLE_STMT c.h,
         Call.updateHandleCount .SQL_HANDLE_STMT 1]) := by
  constructor
  · intro catalog schema table
    simp [Conn.Tables, halloc, hcount, updateHandleCount, World.call]
  · intro catalog schema table column
    simp [Conn.Columns, halloc, hcount, updateHandleCount, World.call]

/-- C10, evaluated where the counter update fails in `Open`.  The update
reports "unexpected handle type", yet `Open` goes on to the connect handshake
and returns a connection and no error. -/
theorem Open_ignores_accounting_failure :
    accountingFailEnv.accountingErr .SQL_HANDLE_DBC 1 =
      some (Error.message "unexpected handle type") ∧
    (Driver.Open accountingFailEnv sampleDriver "DSN=x" sampleWorld).err = none ∧
    (Driver.Open accountingFailEnv sampleDriver "DSN=x" sampleWorld).conn =
      some { h := 7, tx := none, bad := false, isMSAccessDriver := false } ∧
    (Driver.Open accountingFailEnv sampleDriver "DSN=x" sampleWorld).world.log =
      [Call.SQLAllocHandle .SQL_HANDLE_DBC 1,
       Call.updateHandleCount .SQL_HANDLE_DBC 1,
       Call.SQLDriverConnect 7 (some [68, 83, 78, 61, 120, 0])] := by
  decide

/-- C6, evaluated where the native catalog call fails and the classifier
yields the sentinel.  `Tables` and `Columns` return `driver.ErrBadConn` and
the connection they were called on still has `bad = false`. -/
theorem catalog_sentinel_leaves_bad_unset :
    ((sampleConn.Tables badConnEnv "" "" "orders" sampleWorld).err = some Error.ErrBadConn ∧
      (sampleConn.Tables badConnEnv "" "" "orders" sampleWorld).conn.bad = false) ∧
    ((sampleConn.Columns badConnEnv "" "" "orders" "id" sampleWorld).err
        = some Error.ErrBadConn ∧
      (sampleConn.Columns badConnEnv "" "" "orders" "id" sampleWorld).conn.bad = false) := by
  decide

/-- No operation on a connection clears the `bad` flag. -/
theorem bad_flag_never_cleared (env : Env) (c : Conn) (w : World) (hbad : c.bad = true) :
    (c.Close env w).conn.bad = true ∧
    (∀ catalog schema table : String, (c.Tables env catalog schema table w).conn.bad = true) ∧
    (∀ catalog schema table column : String,
      (c.Columns env catalog schema table column w).conn.bad = true) := by
  refine ⟨?_, ?_, ?_⟩
  · cases htx : c.tx <;> cases hd : env.IsError (env.SQLDisconnect c.h)
    all_goals simp [Conn.Close, Conn.Close.deferred, Conn.newError, Tx.Rollback, htx, hd, hbad]
    all_goals (split <;> simp [hbad])
  · intro catalog schema table
    simp only [Conn.Tables, Conn.newError]
    repeat (first | simp [hbad] | split)
  · intro catalog schema table column
    simp only [Conn.Columns, Conn.newError]
    repeat (first | simp [hbad] | split)

/-! ## Conn.Close -/

/-- The handle field is not touched by the rollback step of `Close`. -/
theorem Rollback_keeps_handle (env : Env) (t : Tx) (c : Conn) (w : World) :
    (Tx.Rollback env t c w).2.1.h = c.h := by
  simp [Tx.Rollback]

/-- The calls `Close` logs, in order: the rollback when a transaction is
active, the disconnect, the classifier when the disconnect failed, the
release. -/
theorem Close_log (env : Env) (c : Conn) (w : World) :
    (c.Close env w).world.log = w.log ++
      ((match c.tx with
        | some t => [Call.Rollback t]
        | none => []) ++
      [Call.SQLDisconnect c.h] ++
      (if env.IsError (env.SQLDisconnect c.h) then
        [Call.NewError "SQLDisconnect" (.SQLHDBC c.h)] else []) ++
      [Call.releaseHandle (.SQLHDBC c.h)]) := by
  cases htx : c.tx <;> cases hd : env.IsError (env.SQLDisconnect c.h) <;>
    simp [Conn.Close, Conn.Close.deferred, Conn.newError, NewError, releaseHandle,
      Tx.Rollback, World.call, htx, hd]

/-- The error `Close` returns, in closed form. -/
theorem Close_err (env : Env) (c : Conn) (w : World) :
    (c.Close env w).err =
      if env.IsError (env.SQLDisconnect c.h) then
        some (env.NewError "SQLDisconnect" (.SQLHDBC c.h))
      else env.releaseErr (.SQLHDBC c.h) := by
  cases htx : c.tx <;> cases hd : env.IsError (env.SQLDisconnect c.h) <;>
    simp [Conn.Close, Conn.Close.deferred, Conn.newError, NewError, releaseHandle,
      Tx.Rollback, World.call, htx, hd]

/-- C4. Whatever the connection and whatever the disconnect reports, the calls
`Close` makes contain exactly one release, the release of the handle the
connection held on entry; on return the handle field is the null connection
handle and the connection counter is one lower. -/
theorem Close_releases_once_and_clears_handle (env : Env) (c : Conn) (w : World) :
    (c.Close env w).conn.h = SQL_NULL_HDBC ∧
    (∃ evs, (c.Close env w).world.log = w.log ++ evs ∧
      evs.filter Call.isRelease = [Call.releaseHandle (.SQLHDBC c.h)]) ∧
    (c.Close env w).world.stats.ConnCount = w.stats.ConnCount - 1 := by
  refine ⟨?_, ⟨_, Close_log env c w, ?_⟩, ?_⟩
  · cases htx : c.tx <;> cases hd : env.IsError (env.SQLDisconnect c.h) <;>
      simp [Conn.Close, Conn.Close.deferred, Conn.newError, NewError, releaseHandle,
        Tx.Rollback, World.call, htx, hd]
  · cases htx : c.tx <;> cases hd : env.IsError (env.SQLDisconnect c.h) <;>
      simp [List.filter, Call.isRelease]
  · cases htx : c.tx <;> cases hd : env.IsError (env.SQLDisconnect c.h) <;>
      simp [Conn.Close, Conn.Close.deferred, Conn.newError, NewError, releaseHandle,
        Tx.Rollback, World.call, Stats.add, Handle.handleType, htx, hd] <;>
      rfl

/-- C5. The error of `Close` is fixed by the disconnect and the release: a
failed disconnect gives the classified disconnect error whether or not the
release fails; a successful disconnect gives the release error, and no error
when the release succeeds too. -/
theorem Close_error_precedence (env : Env) (c : Conn) (w : World) :
    (env.IsError (env.SQLDisconnect c.h) = true →
      (c.Close env w).err = some (env.NewError "SQLDisconnect" (.SQLHDBC c.h))) ∧
    (env.IsError (env.SQLDisconnect c.h) = false →
      ∀ e, env.releaseErr (.SQLHDBC c.h) = some e → (c.Close env w).err = some e) ∧
    (env.IsError (env.SQLDisconnect c.h) = false →
      env.releaseErr (.SQLHDBC c.h) = none → (c.Close env w).err = none) := by
  rw [Close_err]
  refine ⟨?_, ?_, ?_⟩
  · intro hd
    simp [hd]
  · intro hd e he
    simp [hd, he]
  · intro hd he
    simp [hd, he]

/-- Witness of C5: disconnect and release both fail, the disconnect error is
the one returned. -/
theorem Close_error_precedence_witness :
    closeFailEnv.releaseErr (.SQLHDBC sampleConn.h) =
      some (Error.message "SQLFreeHandle failed") ∧
    (sampleConn.Close closeFailEnv sampleWorld).err =
      some (Error.odbc "SQLDisconnect" "diagnostic") :=
  ⟨by decide, (Close_error_precedence closeFailEnv sampleConn sampleWorld).1 (by decide)⟩

/-- C9. With an active transaction the calls of `Close` start with the
rollback, followed by the disconnect, and end with the release, with no second
rollback in between; with no active transaction `Close` logs no rollback.  The
error `Close` returns is the same whatever error the rollback returns. -/
theorem Close_rolls_back_before_disconnect (env : Env) (c : Conn) (w : World) :
    (∀ t, c.tx = some t → ∃ mid,
      (c.Close env w).world.log = w.log ++
        [Call.Rollback t, Call.SQLDisconnect c.h] ++ mid ++
        [Call.releaseHandle (.SQLHDBC c.h)] ∧
      mid.filter Call.isRollback = []) ∧
    (c.tx = none → ∃ evs, (c.Close env w).world.log = w.log ++ evs ∧
      evs.filter Call.isRollback = []) ∧
    (∀ rollbackErr : Tx → Conn → Option Error,
      (c.Close { env with Rollback := fun t k => { env.Rollback t k with err := rollbackErr t k } }
        w).err = (c.Close env w).err) := by
  refine ⟨?_, ?_, ?_⟩
  · intro t ht
    refine ⟨if env.IsError (env.SQLDisconnect c.h) then
        [Call.NewError "SQLDisconnect" (.SQLHDBC c.h)] else [], ?_, ?_⟩
    · rw [Close_log, ht]
      simp
    · cases hd : env.IsError (env.SQLDisconnect c.h) <;> simp [List.filter, Call.isRollback]
  · intro ht
    refine ⟨_, Close_log env c w, ?_⟩
    rw [ht]
    cases hd : env.IsError (env.SQLDisconnect c.h) <;> simp [List.filter, Call.isRollback]
  · intro rollbackErr
    rw [Close_err, Close_err]

/-- Witness of C9: the sample connection has an active transaction and its
rollback reports an error; the log starts with the rollback and the returned
error is the disconnect error. -/
theorem Close_rolls_back_before_disconnect_witness :
    (∃ mid, (sampleConn.Close closeFailEnv sampleWorld).world.log = sampleWorld.log ++
        [Call.Rollback { id := 1 }, Call.SQLDisconnect 7] ++ mid ++
        [Call.releaseHandle (.SQLHDBC 7)] ∧
      mid.filter Call.isRollback = []) ∧
    (closeFailEnv.Rollback { id := 1 } sampleConn).err = some (Error.message "rollback failed") :=
  ⟨(Close_rolls_back_before_disconnect closeFailEnv sampleConn sampleWorld).1 { id := 1 }
    (by decide), by decide⟩

/-! ## The quirk flag -/

/-- The flag of a connection returned by `Open` is the value computed from the
connection string. -/
theorem Open_conn_flag (env : Env) (d : Driver) (dsn : String) (w : World) (c : Conn)
    (hopen : (Driver.Open env d dsn w).conn = some c) :
    c.isMSAccessDriver =
      Contains (ToUpper env (removeSpaces dsn.toList)) (accessDriverSubstr env) := by
  unfold Driver.Open at hopen
  cases hi : d.initErr with
  | some e => simp [hi] at hopen
  | none =>
    simp only [hi] at hopen
    split at hopen
    · simp at hopen
    · split at hopen
      · simp at hopen
      · simp only [Option.some.injEq] at hopen
        rw [← hopen]

/-- C7 as stated fails: with a tab inside the marker the connection string
contains the marker once whitespace is stripped and case is ignored, yet `Open`
returns a connection whose flag is false. -/
theorem quirk_flag_misses_tab_variant :
    specQuirk okEnv "DRIVER=\x7bMicrosoft\tAccess Driver\x7d;DBQ=x" = true ∧
    (Driver.Open okEnv sampleDriver "DRIVER=\x7bMicrosoft\tAccess Driver\x7d;DBQ=x"
      sampleWorld).conn =
      some { h := 7, tx := none, bad := false, isMSAccessDriver := false } := by
  decide

/-- C7, amended.  For a connection returned by `Open` the flag is true exactly
when the connection string, with its space characters (U+0020) removed and
then upper-cased, contains `DRIVER={MICROSOFTACCESSDRIVER`.  In particular the
flag is true whenever the connection string contains a piece that becomes that
marker once its spaces are removed and it is upper-cased. -/
theorem Open_quirk_flag_iff (env : Env) (d : Driver) (dsn : String) (w : World) (c : Conn)
    (hopen : (Driver.Open env d dsn w).conn = some c) :
    (c.isMSAccessDriver = true ↔
      ∃ pre post, ToUpper env (removeSpaces dsn.toList) =
        pre ++ "DRIVER=\x7bMICROSOFTACCESSDRIVER".toList ++ post) ∧
    (∀ pre v post, dsn.toList = pre ++ v ++ post →
      ToUpper env (removeSpaces v) = "DRIVER=\x7bMICROSOFTACCESSDRIVER".toList →
      c.isMSAccessDriver = true) := by
  have hflag := Open_conn_flag env d dsn w c hopen
  have hiff : c.isMSAccessDriver = true ↔
      ∃ pre post, ToUpper env (removeSpaces dsn.toList) =
        pre ++ "DRIVER=\x7bMICROSOFTACCESSDRIVER".toList ++ post := by
    rw [hflag, Contains_iff_infix, accessDriverSubstr_eq]
    constructor
    · rintro ⟨pre, post, h⟩
      exact ⟨pre, post, h.symm⟩
    · rintro ⟨pre, post, h⟩
      exact ⟨pre, post, h.symm⟩
  refine ⟨hiff, ?_⟩
  intro pre v post hdsn hv
  refine hiff.2 ⟨ToUpper env (removeSpaces pre), ToUpper env (removeSpaces post), ?_⟩
  rw [hdsn, removeSpaces_append, removeSpaces_append, ToUpper_append, ToUpper_append, hv]

/-- Witness of C7, amended: the connection string of the first example of the
specification. -/
theorem Open_quirk_flag_iff_witness :
    (Driver.Open okEnv sampleDriver "DRIVER=\x7bMicrosoft Access Driver\x7d;DBQ=x"
      sampleWorld).conn =
      some { h := 7, tx := none, bad := false, isMSAccessDriver := true } ∧
    (∃ pre post, ToUpper okEnv (removeSpaces
        "DRIVER=\x7bMicrosoft Access Driver\x7d;DBQ=x".toList) =
        pre ++ "DRIVER=\x7bMICROSOFTACCESSDRIVER".toList ++ post) :=
  ⟨by decide,
    (Open_quirk_flag_iff okEnv sampleDriver "DRIVER=\x7bMicrosoft Access Driver\x7d;DBQ=x"
      sampleWorld { h := 7, tx := none, bad := false, isMSAccessDriver := true }
      (by decide)).1.1 rfl⟩

/-- The two connection strings the specification gives as examples: whenever
`Open` returns a connection for them, the flag is true for the first and false
for the second. -/
theorem Open_quirk_flag_examples (env : Env) (d : Driver) (w : World) (c : Conn) :
    ((Driver.Open env d "DRIVER=\x7bMicrosoft Access Driver\x7d;DBQ=x" w).conn = some c →
      c.isMSAccessDriver = true) ∧
    ((Driver.Open env d "DRIVER=\x7bPostgreSQL\x7d" w).conn = some c →
      c.isMSAccessDriver = false) := by
  constructor
  · intro hopen
    rw [Open_conn_flag env d _ w c hopen]
    rfl
  · intro hopen
    rw [Open_conn_flag env d _ w c hopen]
    rfl

end Odbc
